import Mathlib

/-!
Shallow embedding of the order-lifecycle and subscription-billing core of the
MVTraders marketplace backend, together with theorems checking the
specification's claims about it.

Embedded source:
* `src/app/models/order.py` and `src/app/api/v1/endpoints/orders.py`
  (order status enums, the `Order` / `OrderItem` rows, `create_order`,
  `update_order_status`, `cancel_order`);
* `src/app/models/subscription.py` and
  `src/app/api/v1/endpoints/{subscriptions,billing,usage_tracking}.py`
  (`Subscription`, `Payment`, `UsageRecord`, `create_subscription`,
  `cancel_subscription`, `reactivate_subscription`, `create_payment`,
  `retry_failed_payment`, `track_feature_usage`).

Conventions of the embedding:
* `Time` is an abstract instant (`Int`); `datetime.utcnow()` becomes an
  explicit `now : Time` argument and `timedelta(days = n)` is the integer `n`,
  so all date arithmetic of the source is integer addition and comparison.
* Two-decimal `Decimal` / float amounts are embedded as integers counted in
  hundredths.  Every amount computation performed by the embedded code is
  addition and scaling by an integer quantity, which is exact in this
  representation.
* The ORM session is replaced by explicit state: the endpoints receive the
  rows their queries would fetch (or a list of rows standing for the table)
  and return the updated rows.  HTTP-permission checks (which user may call
  the endpoint) are outside the embedded core, as in the specification.
* A fallible endpoint returns `Except e a`; each `HTTPException` of the
  source becomes a distinct error constructor.
-/

abbrev Time := Int

abbrev Money := Int

namespace OrderApp

/-- `OrderStatus` from `src/app/models/order.py` (lines 23-34). -/
inductive OrderStatus where
  | DRAFT
  | PENDING
  | CONFIRMED
  | PROCESSING
  | SHIPPED
  | OUT_FOR_DELIVERY
  | DELIVERED
  | CANCELLED
  | RETURNED
  | REFUNDED
  deriving DecidableEq, Repr

/-- `PaymentStatus` from `src/app/models/order.py` (lines 37-43).  The source
value `"partial"` is embedded as the constructor `PART_PAID` because of a
naming restriction of this development; it is referenced by no operation. -/
inductive PaymentStatus where
  | PENDING
  | PAID
  | FAILED
  | REFUNDED
  | PART_PAID
  deriving DecidableEq, Repr

/-- The `Order` row (`src/app/models/order.py`, lines 57-208), restricted to
the columns read or written by the embedded operations.  The fields
`confirmed_at`, `shipped_at`, `delivered_at` and `notes` are not declared
columns of the model; they are attributes assigned dynamically by
`update_order_status` and `cancel_order` and are carried here so those
assignments can be embedded faithfully. -/
structure Order where
  status : OrderStatus
  subtotal : Money
  tax_amount : Money
  discount_amount : Money
  shipping_amount : Money
  total_amount : Money
  payment_status : PaymentStatus
  paid_amount : Money
  updated_at : Time
  cancelled_at : Option Time := none
  cancellation_reason : Option String := none
  confirmed_at : Option Time := none
  shipped_at : Option Time := none
  delivered_at : Option Time := none
  notes : Option String := none
  deriving DecidableEq, Repr

/-- The columns of `Product` read by `create_order`. -/
structure Product where
  id : Nat
  vendor_id : Nat
  price : Money
  name : String
  deriving DecidableEq, Repr

/-- One entry of the `items` list of the `create_order` request body. -/
structure ItemData where
  product_id : Nat
  quantity : Int
  deriving DecidableEq, Repr

/-- The `OrderItem` row (`src/app/models/order.py`, lines 219-268), restricted
to the columns assigned by `create_order`. -/
structure OrderItem where
  order_id : Nat
  product_id : Nat
  quantity : Int
  unit_price : Money
  deriving DecidableEq, Repr

/-- The pricing and vendor fields of the `order_data` dict accepted by
`create_order`; they are copied verbatim into the new `Order` row. -/
structure OrderData where
  vendor_id : Nat
  subtotal : Money
  tax_amount : Money := 0
  discount_amount : Money := 0
  shipping_amount : Money := 0
  deriving DecidableEq, Repr

/-- Errors raised by the order endpoints (`HTTPException`s of
`src/app/api/v1/endpoints/orders.py`). -/
inductive OrderError where
  | vendorNotFound
  | emptyItems
  | productNotFound (product_id : Nat)
  | productWrongVendor (product_id : Nat)
  | invalidTransition (src tgt : OrderStatus)
  | invalidState (current : OrderStatus)
  deriving DecidableEq, Repr

/-- The `valid_transitions` dict of `update_order_status`
(`src/app/api/v1/endpoints/orders.py`, lines 216-222); the catch-all clause is
`dict.get(order.status, [])`. -/
def valid_transitions : OrderStatus → List OrderStatus
  | .PENDING => [.CONFIRMED, .CANCELLED]
  | .CONFIRMED => [.PROCESSING, .CANCELLED]
  | .PROCESSING => [.SHIPPED, .CANCELLED]
  | .SHIPPED => [.DELIVERED, .RETURNED]
  | .DELIVERED => [.RETURNED]
  | _ => []

/-- The field updates performed by `update_order_status` once the transition
has been validated (`src/app/api/v1/endpoints/orders.py`, lines 230-239). -/
def apply_status_update (o : Order) (new_status : OrderStatus) (now : Time) : Order :=
  let o := { o with status := new_status, updated_at := now }
  if new_status = .CONFIRMED then { o with confirmed_at := some now }
  else if new_status = .SHIPPED then { o with shipped_at := some now }
  else if new_status = .DELIVERED then { o with delivered_at := some now }
  else o

/-- `update_order_status` (`src/app/api/v1/endpoints/orders.py`, lines
185-245), after the not-found and vendor-permission guards: reject the request
unless `new_status` is in `valid_transitions.get(order.status, [])`, naming
the rejected source and target in the error, and otherwise apply the update. -/
def update_order_status (o : Order) (new_status : OrderStatus) (now : Time) :
    Except OrderError Order :=
  if new_status ∈ valid_transitions o.status then
    .ok (apply_status_update o new_status now)
  else
    .error (.invalidTransition o.status new_status)

/-- The allowed-transition table exactly as written in spec §4.1 (claim C1):
PENDING→{CONFIRMED, CANCELLED}, CONFIRMED→{PROCESSING, CANCELLED},
PROCESSING→{SHIPPED, CANCELLED}, SHIPPED→{DELIVERED, RETURNED},
DELIVERED→{RETURNED}; every other source status has no outgoing transition.
This definition follows the specification's words and is compared with the
code's `valid_transitions`. -/
def specAllowedTransition : OrderStatus → OrderStatus → Bool
  | .PENDING, .CONFIRMED => true
  | .PENDING, .CANCELLED => true
  | .CONFIRMED, .PROCESSING => true
  | .CONFIRMED, .CANCELLED => true
  | .PROCESSING, .SHIPPED => true
  | .PROCESSING, .CANCELLED => true
  | .SHIPPED, .DELIVERED => true
  | .SHIPPED, .RETURNED => true
  | .DELIVERED, .RETURNED => true
  | _, _ => false

/-- `cancel_order` (`src/app/api/v1/endpoints/orders.py`, lines 320-363),
after the not-found and permission guards: reject if the status is DELIVERED,
CANCELLED or RETURNED, else set status to CANCELLED, stamp `updated_at`, and,
when a reason is given, assign `order.notes` (an attribute that is not a
declared column of the `Order` model).  The source never touches
`cancelled_at`, `cancelled_by` or `cancellation_reason`. -/
def cancel_order (o : Order) (reason : Option String) (now : Time) :
    Except OrderError Order :=
  if o.status ∈ [OrderStatus.DELIVERED, OrderStatus.CANCELLED, OrderStatus.RETURNED] then
    .error (.invalidState o.status)
  else
    let o := { o with status := OrderStatus.CANCELLED, updated_at := now }
    let o :=
      match reason with
      | some r => { o with notes := some ( "Cancelled: " ++ r) }
      | none => o
    .ok o

/-- `session.get(Product, product_id)` over the product table. -/
def find_product (products : List Product) (product_id : Nat) : Option Product :=
  products.find? (fun p => p.id = product_id)

/-- The item loop of `create_order` (`src/app/api/v1/endpoints/orders.py`,
lines 74-111): for each requested item, fail if the product is missing or
belongs to another vendor, else snapshot the product's price into an
`OrderItem` and accumulate `price * quantity` into the running total. -/
def build_items (order_id : Nat) (products : List Product) (vendor_id : Nat) :
    List ItemData → Except OrderError (List OrderItem × Money)
  | [] => .ok ([], 0)
  | it :: rest =>
    match find_product products it.product_id with
    | none => .error (.productNotFound it.product_id)
    | some p =>
      if p.vendor_id ≠ vendor_id then
        .error (.productWrongVendor it.product_id)
      else
        match build_items order_id products vendor_id rest with
        | .error e => .error e
        | .ok (items, t) =>
          .ok ({ order_id := order_id, product_id := p.id, quantity := it.quantity,
                 unit_price := p.price } :: items,
               p.price * it.quantity + t)

/-- `create_order` (`src/app/api/v1/endpoints/orders.py`, lines 21-119):
reject an empty item list or an unknown vendor, create the order in
PENDING/PENDING with the pricing fields copied from `order_data`, create one
`OrderItem` per line, and finally overwrite `total_amount` with the
accumulated sum of `price * quantity` (tax, discount and shipping play no
part in that sum).  The address checks of the source, which do not touch the
created order, are outside the embedded core. -/
def create_order (vendors : List Nat) (products : List Product)
    (data : OrderData) (items_data : List ItemData) (now : Time) :
    Except OrderError (Order × List OrderItem) :=
  if items_data.isEmpty then .error .emptyItems
  else if data.vendor_id ∉ vendors then .error .vendorNotFound
  else
    let order : Order :=
      { status := .PENDING, payment_status := .PENDING,
        subtotal := data.subtotal, tax_amount := data.tax_amount,
        discount_amount := data.discount_amount,
        shipping_amount := data.shipping_amount,
        total_amount := 0, paid_amount := 0, updated_at := now }
    match build_items 0 products data.vendor_id items_data with
    | .error e => .error e
    | .ok (items, total_amount) =>
      .ok ({ order with total_amount := total_amount }, items)

/-- Sum of the line totals `price * quantity` of a request's items, looking
prices up in the product table (missing products contribute 0; `create_order`
only succeeds when every product is found). -/
def line_sum (products : List Product) (items : List ItemData) : Money :=
  (items.map (fun it =>
    match find_product products it.product_id with
    | some p => p.price * it.quantity
    | none => 0)).sum

end OrderApp

namespace OrderApp

/-- Concrete order used to exercise `cancel_order`: a PENDING order whose
`cancelled_at` is unset. -/
def sample_pending_order : Order :=
  { status := .PENDING, subtotal := 13000, tax_amount := 0, discount_amount := 0,
    shipping_amount := 0, total_amount := 13000, payment_status := .PENDING,
    paid_amount := 0, updated_at := 0 }

/-- Product table for the spec §8 example scenario: two products of vendor 7
priced 50.00 and 30.00. -/
def example_products : List Product :=
  [{ id := 1, vendor_id := 7, price := 5000, name := "A" },
   { id := 2, vendor_id := 7, price := 3000, name := "B" }]

/-- Pricing fields for the §8 example: subtotal 130.00, tax 10.00,
discount 0, shipping 5.00. -/
def example_order_data : OrderData :=
  { vendor_id := 7, subtotal := 13000, tax_amount := 1000,
    discount_amount := 0, shipping_amount := 500 }

/-- Items of the §8 example: qty 2 of product 1, qty 1 of product 2. -/
def example_items : List ItemData :=
  [{ product_id := 1, quantity := 2 }, { product_id := 2, quantity := 1 }]

/-- The order row produced by `create_order` on the §8 example. -/
def example_created_order : Order :=
  { status := .PENDING, payment_status := .PENDING, subtotal := 13000,
    tax_amount := 1000, discount_amount := 0, shipping_amount := 500,
    total_amount := 13000, paid_amount := 0, updated_at := 0 }

/-- The item rows produced by `create_order` on the §8 example. -/
def example_created_items : List OrderItem :=
  [{ order_id := 0, product_id := 1, quantity := 2, unit_price := 5000 },
   { order_id := 0, product_id := 2, quantity := 1, unit_price := 3000 }]

end OrderApp

namespace SubApp

/-- `SubscriptionStatus` from `src/app/models/subscription.py` (lines 30-37). -/
inductive SubscriptionStatus where
  | ACTIVE
  | INACTIVE
  | SUSPENDED
  | CANCELLED
  | EXPIRED
  | TRIAL
  deriving DecidableEq, Repr

/-- `BillingCycle` from `src/app/models/subscription.py` (lines 22-27). -/
inductive BillingCycle where
  | MONTHLY
  | QUARTERLY
  | ANNUALLY
  | LIFETIME
  deriving DecidableEq, Repr

/-- `PaymentStatus` from `src/app/models/subscription.py` (lines 40-46). -/
inductive PaymentStatus where
  | PENDING
  | COMPLETED
  | FAILED
  | REFUNDED
  | CANCELLED
  deriving DecidableEq, Repr

/-- The `Subscription` row (`src/app/models/subscription.py`, lines 104-182),
restricted to the columns read or written by the embedded operations.  Note
that the model declares no `billing_cycle` column: the billing cycle is a
column of `SubscriptionPlan`. -/
structure Subscription where
  id : Nat
  vendor_id : Nat
  plan_id : Nat
  status : SubscriptionStatus
  start_date : Time
  end_date : Option Time := none
  trial_end_date : Option Time := none
  current_period_start : Time
  current_period_end : Time
  next_billing_date : Option Time := none
  amount : Money
  cancelled_at : Option Time := none
  cancellation_reason : Option String := none
  auto_renew : Bool := true
  deriving DecidableEq, Repr

/-- The columns of `SubscriptionPlan` (`src/app/models/subscription.py`,
lines 59-101) read by the embedded operations.  `features` embeds the JSON
mapping from feature name to `features[name].get('limit')`. -/
structure SubscriptionPlan where
  id : Nat
  base_price : Money
  billing_cycle : BillingCycle
  trial_days : Option Int := none
  features : List (String × Option Int) := []
  is_active : Bool := true
  deriving DecidableEq, Repr

/-- The `Payment` row (`src/app/models/subscription.py`, lines 185-234),
restricted to the columns read or written by the embedded operations. -/
structure Payment where
  id : Nat
  subscription_id : Nat
  vendor_id : Nat
  amount : Money
  status : PaymentStatus
  payment_date : Option Time := none
  due_date : Option Time := none
  billing_period_start : Time
  billing_period_end : Time
  failure_reason : Option String := none
  retry_count : Int := 0
  transaction_id : Option String := none
  deriving DecidableEq, Repr

/-- The `UsageRecord` row (`src/app/models/subscription.py`, lines 237-282). -/
structure UsageRecord where
  id : Nat
  subscription_id : Nat
  vendor_id : Nat
  feature_name : String
  usage_count : Int := 0
  usage_limit : Option Int := none
  period_start : Time
  period_end : Time
  updated_at : Time
  deriving DecidableEq, Repr

/-- Errors raised by the subscription, billing and usage endpoints: the
`HTTPException`s of the corresponding files, plus the two Python name-lookup
crashes the source actually produces.  `unboundLocalError` stands for
`UnboundLocalError` on the name `status` inside `create_subscription`:
because `status` is assigned later in that function (lines 111/115), the
name is function-local throughout, so the `raise HTTPException(status_code =
status.HTTP_404_NOT_FOUND, ...)` at lines 86-89 and the conflict raise at
lines 97-101 read an unbound local and crash before the `HTTPException` is
constructed.  `attributeError` stands for `AttributeError` on
`subscription.billing_cycle` in `create_payment`. -/
inductive SubError where
  | unboundLocalError
  | noActiveSubscription
  | noCancelledSubscription
  | expired
  | failedPaymentNotFound
  | maxRetryExceeded
  | attributeError
  deriving DecidableEq, Repr

/-- `Subscription.is_active` (`src/app/models/subscription.py`, lines
153-161): false unless the status is ACTIVE or TRIAL, false when a set
`end_date` lies in the past, true otherwise. -/
def is_active (s : Subscription) (now : Time) : Bool :=
  if ¬ (s.status = .ACTIVE ∨ s.status = .TRIAL) then false
  else
    match s.end_date with
    | some e => if e < now then false else true
    | none => true

/-- `UsageRecord.is_limit_exceeded` (`src/app/models/subscription.py`, lines
269-273): false when no limit is set, else `usage_count >= usage_limit`. -/
def is_limit_exceeded (u : UsageRecord) : Bool :=
  match u.usage_limit with
  | none => false
  | some l => u.usage_count ≥ l

/-- The existing-subscription query of `create_subscription`
(`src/app/api/v1/endpoints/subscriptions.py`, lines 92-95): does the vendor
have a subscription with status in {ACTIVE, TRIAL}? -/
def has_active_subscription (subs : List Subscription) (vendor_id : Nat) : Bool :=
  subs.any (fun s => s.vendor_id = vendor_id ∧ (s.status = .ACTIVE ∨ s.status = .TRIAL))

/-- Period length of a billing cycle in days as computed by
`create_subscription` (`src/app/api/v1/endpoints/subscriptions.py`, lines
119-126); the `else` branch covers LIFETIME with 100 years. -/
def cycle_period_days : BillingCycle → Int
  | .MONTHLY => 30
  | .QUARTERLY => 90
  | .ANNUALLY => 365
  | .LIFETIME => 365 * 100

/-- Python truthiness of the optional integer `plan.trial_days`: `None` and
`0` are falsy. -/
def trial_days_truthy : Option Int → Bool
  | none => false
  | some d => d ≠ 0

/-- `create_subscription` (`src/app/api/v1/endpoints/subscriptions.py`, lines
67-156) on the subscription table.  Both rejection paths crash rather than
raise their `HTTPException`: the function assigns `status =
SubscriptionStatus.TRIAL/ACTIVE` at lines 111/115, which makes `status` a
local variable for the whole function body, so evaluating `status.HTTP_404_NOT_FOUND`
(inactive/missing plan, lines 86-89) or `status.HTTP_400_BAD_REQUEST`
(vendor already has an ACTIVE or TRIAL subscription, lines 97-101) raises
`UnboundLocalError` before the exception object is built.  On the success
path it creates a TRIAL subscription ending at `now + trial_days` (when a
trial was requested and the plan has trial days) or an ACTIVE one ending one
cycle length after `now`; `next_billing_date` is the period end for ACTIVE
and the trial end for TRIAL.  The new row is appended with identifier
`next_id`. -/
def create_subscription (subs : List Subscription) (next_id : Nat) (vendor_id : Nat)
    (plan : SubscriptionPlan) (billing_cycle_arg : Option BillingCycle)
    (start_trial : Bool) (now : Time) :
    Except SubError (List Subscription × Nat) :=
  if plan.is_active = false then .error .unboundLocalError
  else if has_active_subscription subs vendor_id then .error .unboundLocalError
  else
    let billing_cycle := billing_cycle_arg.getD plan.billing_cycle
    let start_date := now
    let trial : Bool := start_trial && trial_days_truthy plan.trial_days
    let trial_end_date : Option Time :=
      if trial then some (start_date + plan.trial_days.getD 0) else none
    let current_period_end : Time :=
      if trial then start_date + plan.trial_days.getD 0
      else start_date + cycle_period_days billing_cycle
    let stat : SubscriptionStatus := if trial then .TRIAL else .ACTIVE
    let sub : Subscription :=
      { id := next_id, vendor_id := vendor_id, plan_id := plan.id, status := stat,
        start_date := start_date, trial_end_date := trial_end_date,
        current_period_start := start_date, current_period_end := current_period_end,
        next_billing_date :=
          if stat = .ACTIVE then some current_period_end else trial_end_date,
        amount := plan.base_price }
    .ok (subs ++ [sub], next_id + 1)

/-- The `ACTIVE`-or-`TRIAL` subscription query shared by `cancel_subscription`
and `change_subscription_plan` (`.first()` over the vendor's rows). -/
def find_active (subs : List Subscription) (vendor_id : Nat) : Option Subscription :=
  subs.find? (fun s => s.vendor_id = vendor_id ∧ (s.status = .ACTIVE ∨ s.status = .TRIAL))

/-- The `CANCELLED` subscription query of `reactivate_subscription`. -/
def find_cancelled (subs : List Subscription) (vendor_id : Nat) : Option Subscription :=
  subs.find? (fun s => s.vendor_id = vendor_id ∧ s.status = .CANCELLED)

/-- Replace the row with the same `id` by its updated version. -/
def update_sub (subs : List Subscription) (s' : Subscription) : List Subscription :=
  subs.map (fun s => if s.id = s'.id then s' else s)

/-- The field updates of `cancel_subscription`
(`src/app/api/v1/endpoints/subscriptions.py`, lines 232-244): stamp
`cancelled_at` and the reason, clear `auto_renew`; with `immediate` the status
becomes CANCELLED and `end_date = now`, otherwise the status also becomes
CANCELLED but `end_date = current_period_end`. -/
def apply_cancel (s : Subscription) (reason : Option String) (immediate : Bool)
    (now : Time) : Subscription :=
  let s := { s with cancelled_at := some now, cancellation_reason := reason,
                    auto_renew := false }
  if immediate then { s with status := .CANCELLED, end_date := some now }
  else { s with status := .CANCELLED, end_date := some s.current_period_end }

/-- `cancel_subscription` (`src/app/api/v1/endpoints/subscriptions.py`, lines
210-252) on the subscription table: 404 when the vendor has no ACTIVE or
TRIAL subscription, else update the found row. -/
def cancel_subscription (subs : List Subscription) (vendor_id : Nat)
    (reason : Option String) (immediate : Bool) (now : Time) :
    Except SubError (List Subscription × Subscription) :=
  match find_active subs vendor_id with
  | none => .error .noActiveSubscription
  | some s =>
    let s' := apply_cancel s reason immediate now
    .ok (update_sub subs s', s')

/-- The field updates of `reactivate_subscription`
(`src/app/api/v1/endpoints/subscriptions.py`, lines 282-287). -/
def apply_reactivate (s : Subscription) : Subscription :=
  { s with status := .ACTIVE, cancelled_at := none, cancellation_reason := none,
           auto_renew := true, end_date := none }

/-- The expiry check and update of `reactivate_subscription` on the fetched
row: reject when `end_date` is set and lies in the past (a `datetime` is
always truthy in the source's `if subscription.end_date and ...`). -/
def reactivate_one (s : Subscription) (now : Time) : Except SubError Subscription :=
  match s.end_date with
  | some e => if e < now then .error .expired else .ok (apply_reactivate s)
  | none => .ok (apply_reactivate s)

/-- `reactivate_subscription` (`src/app/api/v1/endpoints/subscriptions.py`,
lines 255-295) on the subscription table: 404 when the vendor has no
CANCELLED subscription, reject expired ones, else reactivate the found row.
No check against other ACTIVE or TRIAL subscriptions of the vendor is
performed. -/
def reactivate_subscription (subs : List Subscription) (vendor_id : Nat) (now : Time) :
    Except SubError (List Subscription × Subscription) :=
  match find_cancelled subs vendor_id with
  | none => .error .noCancelledSubscription
  | some s =>
    match reactivate_one s now with
    | .error e => .error e
    | .ok s' => .ok (update_sub subs s', s')

/-- Reading `subscription.billing_cycle` in `create_payment`
(`src/app/api/v1/endpoints/billing.py`, lines 72-83).  The `Subscription`
model declares no `billing_cycle` attribute (`billing_cycle` is a column of
`SubscriptionPlan`), so in the source this attribute access raises
`AttributeError` on every call. -/
def subscription_billing_cycle (_s : Subscription) : Except SubError BillingCycle :=
  .error .attributeError

/-- The period rollover of `create_payment`
(`src/app/api/v1/endpoints/billing.py`, lines 71-83), keyed on the billing
cycle it attempts to read: monthly, quarterly and annual cycles advance the
period start to the old period end, push the period end one cycle length
(30/90/365 days) further and set `next_billing_date` to the new period end;
no branch exists for any other cycle, which is left unchanged. -/
def roll_period (s : Subscription) : BillingCycle → Subscription
  | .MONTHLY =>
    { s with current_period_start := s.current_period_end,
             current_period_end := s.current_period_end + 30,
             next_billing_date := some (s.current_period_end + 30) }
  | .QUARTERLY =>
    { s with current_period_start := s.current_period_end,
             current_period_end := s.current_period_end + 90,
             next_billing_date := some (s.current_period_end + 90) }
  | .ANNUALLY =>
    { s with current_period_start := s.current_period_end,
             current_period_end := s.current_period_end + 365,
             next_billing_date := some (s.current_period_end + 365) }
  | .LIFETIME => s

/-- `create_payment` (`src/app/api/v1/endpoints/billing.py`, lines 23-94) on
the fetched subscription: create a PENDING payment for the current billing
period, simulate immediate success, then read `subscription.billing_cycle` to
roll the billing period.  That attribute read raises `AttributeError` (the
column lives on `SubscriptionPlan`), so the rollover code is unreachable. -/
def create_payment (s : Subscription) (payment_id : Nat) (now : Time) :
    Except SubError (Payment × Subscription) := do
  let payment : Payment :=
    { id := payment_id, subscription_id := s.id, vendor_id := s.vendor_id,
      amount := s.amount, status := .PENDING, due_date := s.next_billing_date,
      billing_period_start := s.current_period_start,
      billing_period_end := s.current_period_end }
  let payment := { payment with status := PaymentStatus.COMPLETED,
                                payment_date := some now,
                                transaction_id := some ( "TXN" ++ toString payment_id) }
  let bc ← subscription_billing_cycle s
  .ok (payment, roll_period s bc)

/-- `retry_failed_payment` (`src/app/api/v1/endpoints/billing.py`, lines
137-185) on the fetched payment: the query only matches FAILED payments
(else 404); a payment whose `retry_count` is already 3 or more is rejected;
otherwise the payment returns to PENDING with `retry_count` incremented by
one and, from the second retry on, is simulated to complete. -/
def retry_failed_payment (p : Payment) (now : Time) : Except SubError Payment :=
  if p.status ≠ .FAILED then .error .failedPaymentNotFound
  else if p.retry_count ≥ 3 then .error .maxRetryExceeded
  else
    let p := { p with status := PaymentStatus.PENDING,
                      retry_count := p.retry_count + 1, failure_reason := none }
    let p :=
      if p.retry_count ≥ 2 then
        { p with status := PaymentStatus.COMPLETED, payment_date := some now,
                 transaction_id := some ( "TXN" ++ toString p.id ++ "_RETRY") }
      else p
    .ok p

/-- Fold a sequence of `retry_failed_payment` calls over one payment; a
rejected call leaves the payment unchanged, as in the source, where the
rejection is raised before any mutation. -/
def retry_many (p : Payment) : List Time → Payment
  | [] => p
  | t :: ts =>
    match retry_failed_payment p t with
    | .ok p' => retry_many p' ts
    | .error _ => retry_many p ts

/-- The structured result dict returned by `track_feature_usage`: the
rejection dict (`success: False`, lines 138-145) or the success dict
(`success: True`, lines 160-168). -/
inductive TrackUsageResult where
  | limit_exceeded (current_usage : Int) (usage_limit : Int)
      (attempted_increment : Int) (would_result_in : Int)
  | tracked (current_usage : Int) (usage_limit : Option Int) (increment_applied : Int)
  deriving DecidableEq, Repr

/-- The `success` flag of a `track_feature_usage` result. -/
def TrackUsageResult.success : TrackUsageResult → Bool
  | .limit_exceeded .. => false
  | .tracked .. => true

/-- The core of `track_feature_usage`
(`src/app/api/v1/endpoints/usage_tracking.py`, lines 134-168) on the
fetched-or-created usage record: compute `new_usage_count = usage_count +
usage_increment`; when `usage_limit` is truthy (set and nonzero — the source
tests `if usage_record.usage_limit and ...`) and the new count exceeds it,
return the limit-exceeded result without touching the record; otherwise store
the new count and stamp `updated_at`. -/
def track_feature_usage (u : UsageRecord) (usage_increment : Int) (now : Time) :
    TrackUsageResult × UsageRecord :=
  let new_usage_count := u.usage_count + usage_increment
  match u.usage_limit with
  | some l =>
    if l ≠ 0 ∧ new_usage_count > l then
      (.limit_exceeded u.usage_count l usage_increment new_usage_count, u)
    else
      (.tracked new_usage_count u.usage_limit usage_increment,
       { u with usage_count := new_usage_count, updated_at := now })
  | none =>
    (.tracked new_usage_count u.usage_limit usage_increment,
     { u with usage_count := new_usage_count, updated_at := now })

end SubApp

namespace SubApp

/-- A monthly plan used by the concrete scenarios. -/
def monthly_plan : SubscriptionPlan :=
  { id := 1, base_price := 99900, billing_cycle := .MONTHLY }

/-- A cancelled subscription of vendor 7 whose `end_date` (day 100) has not
yet passed at day 50. -/
def cancelled_sub : Subscription :=
  { id := 1, vendor_id := 7, plan_id := 1, status := .CANCELLED, start_date := 0,
    end_date := some 100, current_period_start := 0, current_period_end := 100,
    amount := 99900, cancelled_at := some 40, auto_renew := false }

/-- An ACTIVE subscription of vendor 7 at period midpoint: the current period
runs from day 0 to day 100. -/
def active_sub : Subscription :=
  { id := 1, vendor_id := 7, plan_id := 1, status := .ACTIVE, start_date := 0,
    current_period_start := 0, current_period_end := 100,
    next_billing_date := some 100, amount := 99900 }

/-- A FAILED payment that has already been retried three times. -/
def exhausted_payment : Payment :=
  { id := 1, subscription_id := 1, vendor_id := 7, amount := 99900,
    status := .FAILED, billing_period_start := 0, billing_period_end := 30,
    retry_count := 3 }

/-- A usage record with `usage_limit = 0`. -/
def zero_limit_record : UsageRecord :=
  { id := 1, subscription_id := 1, vendor_id := 7, feature_name := "api_calls",
    usage_count := 0, usage_limit := some 0, period_start := 0, period_end := 30,
    updated_at := 0 }

/-- The §8 scenario 4 usage record: `usage_limit = 100`, `usage_count = 95`. -/
def near_limit_record : UsageRecord :=
  { id := 2, subscription_id := 1, vendor_id := 7, feature_name := "api_calls",
    usage_count := 95, usage_limit := some 100, period_start := 0, period_end := 30,
    updated_at := 0 }

/-- Number of subscriptions of a vendor in status ACTIVE or TRIAL. -/
def active_count (subs : List Subscription) (vendor_id : Nat) : Nat :=
  (subs.filter (fun s => s.vendor_id = vendor_id ∧
    (s.status = .ACTIVE ∨ s.status = .TRIAL))).length

/-- A four-step trace of subscription operations for vendor 7: subscribe to
the monthly plan at day 0, cancel (not immediate) at day 10, subscribe again
at day 12, reactivate at day 15. -/
def resurrection_trace : Except SubError (List Subscription × Nat) := do
  let (subs1, n1) ← create_subscription [] 1 7 monthly_plan none false 0
  let (subs2, _c) ← cancel_subscription subs1 7 none false 10
  let (subs3, n2) ← create_subscription subs2 n1 7 monthly_plan none false 12
  let (subs4, _r) ← reactivate_subscription subs3 7 15
  .ok (subs4, n2)

end SubApp

theorem mem_valid_transitions_iff (a b : OrderApp.OrderStatus) :
    b ∈ OrderApp.valid_transitions a ↔ OrderApp.specAllowedTransition a b = true := by
  cases a <;> cases b <;> decide

/-- Claim C1: `update_order_status` succeeds if and only if the pair
(current status, requested status) appears in the allowed-transition table of
spec §4.1, and every other request is rejected with an invalid-transition
error naming the rejected source and target.  The code's transition check is
exactly the spec's table. -/
theorem update_order_status_agrees_with_spec_table
    (o : OrderApp.Order) (new_status : OrderApp.OrderStatus) (now : Time) :
    OrderApp.update_order_status o new_status now =
      if OrderApp.specAllowedTransition o.status new_status then
        .ok (OrderApp.apply_status_update o new_status now)
      else
        .error (.invalidTransition o.status new_status) := by
  by_cases h : OrderApp.specAllowedTransition o.status new_status = true
  · have hm : new_status ∈ OrderApp.valid_transitions o.status :=
      (mem_valid_transitions_iff _ _).mpr h
    simp [OrderApp.update_order_status, hm, h]
  · have hm : ¬ new_status ∈ OrderApp.valid_transitions o.status :=
      fun hc => h ((mem_valid_transitions_iff _ _).mp hc)
    simp [OrderApp.update_order_status, hm, h]

/-- Claim C2, counterexample: cancelling a PENDING order succeeds, but the
resulting order's `cancelled_at` is still unset — `cancel_order` never writes
that column, contradicting the claim that a successful cancellation sets the
order's `cancelled_at` timestamp. -/
theorem cancel_order_does_not_set_cancelled_at :
    OrderApp.sample_pending_order.status = .PENDING ∧
    (OrderApp.cancel_order OrderApp.sample_pending_order none 100).isOk = true ∧
    (OrderApp.cancel_order OrderApp.sample_pending_order none 100).toOption.map
      OrderApp.Order.cancelled_at = some none :=
  ⟨rfl, rfl, rfl⟩

/-- Claim C2, amended: `cancel_order` fails if and only if the order's status
is DELIVERED, CANCELLED or RETURNED (with an invalid-state error); from every
other status it succeeds, sets the status to CANCELLED and stamps
`updated_at`, but leaves `cancelled_at` (and `cancellation_reason`)
unchanged — it does not set the cancellation timestamp. -/
theorem cancel_order_behavior (o : OrderApp.Order) (reason : Option String) (now : Time) :
    ((OrderApp.cancel_order o reason now).isOk = true ↔
      ¬ (o.status = .DELIVERED ∨ o.status = .CANCELLED ∨ o.status = .RETURNED)) ∧
    (∀ o', OrderApp.cancel_order o reason now = .ok o' →
      o'.status = .CANCELLED ∧ o'.updated_at = now ∧
      o'.cancelled_at = o.cancelled_at ∧
      o'.cancellation_reason = o.cancellation_reason) ∧
    ((o.status = .DELIVERED ∨ o.status = .CANCELLED ∨ o.status = .RETURNED) →
      OrderApp.cancel_order o reason now = .error (.invalidState o.status)) := by
  by_cases h : o.status = .DELIVERED ∨ o.status = .CANCELLED ∨ o.status = .RETURNED
  · have hm : o.status ∈ [OrderApp.OrderStatus.DELIVERED, OrderApp.OrderStatus.CANCELLED,
        OrderApp.OrderStatus.RETURNED] := by simpa using h
    refine ⟨by simp [OrderApp.cancel_order, hm, h, Except.isOk, Except.toBool], ?_,
      fun _ => by simp [OrderApp.cancel_order, hm]⟩
    intro o' ho'
    simp [OrderApp.cancel_order, hm] at ho'
  · have hm : o.status ∉ [OrderApp.OrderStatus.DELIVERED, OrderApp.OrderStatus.CANCELLED,
        OrderApp.OrderStatus.RETURNED] := by simpa using h
    refine ⟨by cases reason <;> simp [OrderApp.cancel_order, hm, h, Except.isOk, Except.toBool], ?_,
      fun hd => absurd hd h⟩
    intro o' ho'
    cases reason <;> simp [OrderApp.cancel_order, hm] at ho' <;>
      simp [← ho']

/-- Claim C2 witness: cancelling the sample PENDING order succeeds. -/
theorem cancel_order_behavior_witness :
    (OrderApp.cancel_order OrderApp.sample_pending_order none 100).isOk = true :=
  (cancel_order_behavior OrderApp.sample_pending_order none 100).1.mpr (by decide)

/-- Claim C3, counterexample: on the spec §8 example (items qty 2 @ 50.00 and
qty 1 @ 30.00, subtotal 130.00, tax 10.00, shipping 5.00, discount 0, amounts
in hundredths) `create_order` stores `total_amount = 130.00`, while
`subtotal + tax - discount + shipping = 145.00`, so the claimed invariant
`total_amount == subtotal + tax_amount - discount_amount + shipping_amount`
fails on the freshly created order. -/
theorem create_order_total_ignores_tax_and_shipping :
    OrderApp.create_order [7] OrderApp.example_products OrderApp.example_order_data
        OrderApp.example_items 0 =
      .ok (OrderApp.example_created_order, OrderApp.example_created_items) ∧
    OrderApp.example_created_order.total_amount = 13000 ∧
    OrderApp.example_created_order.subtotal + OrderApp.example_created_order.tax_amount
      - OrderApp.example_created_order.discount_amount
      + OrderApp.example_created_order.shipping_amount = 14500 ∧
    (13000 : Money) ≠ 14500 :=
  ⟨rfl, rfl, rfl, by decide⟩

theorem build_items_line_sum (order_id : Nat) (products : List OrderApp.Product)
    (vendor_id : Nat) (items : List OrderApp.ItemData)
    (res : List OrderApp.OrderItem) (t : Money)
    (h : OrderApp.build_items order_id products vendor_id items = .ok (res, t)) :
    t = OrderApp.line_sum products items := by
  induction items generalizing res t with
  | nil =>
    simp [OrderApp.build_items] at h
    simp [OrderApp.line_sum, ← h.2]
  | cons it rest ih =>
    cases hf : OrderApp.find_product products it.product_id with
    | none => simp [OrderApp.build_items, hf] at h
    | some p =>
      by_cases hv : p.vendor_id ≠ vendor_id
      · simp [OrderApp.build_items, hf, hv] at h
      · cases hb : OrderApp.build_items order_id products vendor_id rest with
        | error e => simp [OrderApp.build_items, hf, hv, hb] at h
        | ok pr =>
          obtain ⟨items', t'⟩ := pr
          simp [OrderApp.build_items, hf, hv, hb] at h
          have ht' := ih items' t' hb
          simp [OrderApp.line_sum, hf, ← h.2, ht', OrderApp.line_sum]

/-- Claim C3, amended: for every successful `create_order`, the stored
`total_amount` equals the sum of the items' line totals
(`price * quantity`), and `subtotal`, `tax_amount`, `discount_amount` and
`shipping_amount` are stored exactly as supplied in the request, so the spec
invariant `total_amount == subtotal + tax - discount + shipping` holds only
when the supplied pricing fields happen to combine to that line sum (in the
§8 example the stored total is 130.00, not 145.00). -/
theorem create_order_total_is_line_sum (vendors : List Nat)
    (products : List OrderApp.Product) (data : OrderApp.OrderData)
    (items : List OrderApp.ItemData) (now : Time) (o : OrderApp.Order)
    (its : List OrderApp.OrderItem)
    (h : OrderApp.create_order vendors products data items now = .ok (o, its)) :
    o.total_amount = OrderApp.line_sum products items ∧
    o.subtotal = data.subtotal ∧ o.tax_amount = data.tax_amount ∧
    o.discount_amount = data.discount_amount ∧
    o.shipping_amount = data.shipping_amount := by
  by_cases he : items.isEmpty
  · simp [OrderApp.create_order, he] at h
  · by_cases hvend : data.vendor_id ∉ vendors
    · simp [OrderApp.create_order, he, hvend] at h
    · cases hb : OrderApp.build_items 0 products data.vendor_id items with
      | error e => simp [OrderApp.create_order, he, hvend, hb] at h
      | ok pr =>
        obtain ⟨items', t'⟩ := pr
        simp [OrderApp.create_order, he, hvend, hb] at h
        obtain ⟨ho, hits⟩ := h
        refine ⟨?_, ?_, ?_, ?_, ?_⟩ <;>
          simp [← ho, build_items_line_sum 0 products data.vendor_id items items' t' hb]

/-- Claim C3 witness: on the §8 example the stored total is the line sum. -/
theorem create_order_total_is_line_sum_witness :
    OrderApp.example_created_order.total_amount =
      OrderApp.line_sum OrderApp.example_products OrderApp.example_items :=
  (create_order_total_is_line_sum [7] OrderApp.example_products
    OrderApp.example_order_data OrderApp.example_items 0
    OrderApp.example_created_order OrderApp.example_created_items rfl).1

/-- Claim C4: `create_payment` can never roll the billing period, because
after recording the payment it reads `subscription.billing_cycle`, an
attribute the `Subscription` model does not declare (`billing_cycle` is a
column of `SubscriptionPlan`), so every call fails with `AttributeError` and
`current_period_start`, `current_period_end` and `next_billing_date` are
never advanced — the code cannot produce the claimed
`current_period_end == E0 + k*L` for any k ≥ 1. -/
theorem create_payment_always_attribute_error (s : SubApp.Subscription)
    (payment_id : Nat) (now : Time) :
    SubApp.create_payment s payment_id now = .error .attributeError := rfl

/-- Claim C5, counterexample: a usage record whose `usage_limit` is set to 0
accepts an increment of 5 even though `new_count = 5 > 0 = usage_limit`; the
source's check `if usage_record.usage_limit and ...` treats the set limit 0
as falsy, so the claim's rejection rule fails for a record with a set
`usage_limit`. -/
theorem track_usage_zero_limit_not_rejected :
    SubApp.zero_limit_record.usage_limit = some 0 ∧
    SubApp.zero_limit_record.usage_count + 5 > 0 ∧
    (SubApp.track_feature_usage SubApp.zero_limit_record 5 1).1.success = true ∧
    (SubApp.track_feature_usage SubApp.zero_limit_record 5 1).2.usage_count = 5 :=
  ⟨rfl, by decide, rfl, rfl⟩

/-- Claim C5, amended: for every usage record with a set **nonzero**
`usage_limit`, `track_feature_usage` computes `new_count = usage_count +
increment` and rejects (structured failure, record untouched — so repeated
rejected increments leave `usage_count` unchanged) exactly when `new_count >
usage_limit`, and applies the increment otherwise; with `usage_limit = 100`
and `usage_count = 95` an increment of 10 is rejected leaving 95 and an
increment of 5 is accepted yielding exactly 100. -/
theorem track_usage_nonzero_limit_behavior (u : SubApp.UsageRecord) (inc : Int)
    (now : Time) (l : Int) (hl : u.usage_limit = some l) (hnz : l ≠ 0) :
    (u.usage_count + inc > l →
      (SubApp.track_feature_usage u inc now).1.success = false ∧
      (SubApp.track_feature_usage u inc now).2 = u) ∧
    (u.usage_count + inc ≤ l →
      (SubApp.track_feature_usage u inc now).1.success = true ∧
      (SubApp.track_feature_usage u inc now).2.usage_count = u.usage_count + inc) := by
  constructor
  · intro hgt
    simp [SubApp.track_feature_usage, hl, hnz, hgt, SubApp.TrackUsageResult.success]
  · intro hle
    have hc : ¬ (l ≠ 0 ∧ u.usage_count + inc > l) :=
      fun hx => absurd hx.2 (not_lt.mpr hle)
    simp [SubApp.track_feature_usage, hl, hc, SubApp.TrackUsageResult.success]

/-- Claim C5 witness: the §8 scenario — limit 100, count 95: increment 10 is
rejected leaving the record unchanged, increment 5 is accepted yielding 100. -/
theorem track_usage_nonzero_limit_behavior_witness :
    ((SubApp.track_feature_usage SubApp.near_limit_record 10 1).1.success = false ∧
      (SubApp.track_feature_usage SubApp.near_limit_record 10 1).2 =
        SubApp.near_limit_record) ∧
    ((SubApp.track_feature_usage SubApp.near_limit_record 5 2).1.success = true ∧
      (SubApp.track_feature_usage SubApp.near_limit_record 5 2).2.usage_count = 100) :=
  ⟨(track_usage_nonzero_limit_behavior SubApp.near_limit_record 10 1 100 rfl
      (by decide)).1 (by decide),
   (track_usage_nonzero_limit_behavior SubApp.near_limit_record 5 2 100 rfl
      (by decide)).2 (by decide)⟩

/-- Claim C6: for the CANCELLED subscription fetched by
`reactivate_subscription`, reactivation succeeds if and only if `end_date` is
unset or `end_date >= now` (otherwise it fails with the expired error), and
on success the subscription becomes ACTIVE with `cancelled_at`,
`cancellation_reason` and `end_date` cleared and `auto_renew` set. -/
theorem reactivate_subscription_behavior (subs : List SubApp.Subscription)
    (vendor_id : Nat) (now : Time) (s : SubApp.Subscription)
    (hfind : SubApp.find_cancelled subs vendor_id = some s) :
    s.status = .CANCELLED ∧
    ((SubApp.reactivate_subscription subs vendor_id now).isOk = true ↔
      (s.end_date = none ∨ ∃ e, s.end_date = some e ∧ now ≤ e)) ∧
    ((∃ e, s.end_date = some e ∧ e < now) →
      SubApp.reactivate_subscription subs vendor_id now = .error .expired) ∧
    (∀ subs' s', SubApp.reactivate_subscription subs vendor_id now = .ok (subs', s') →
      s'.status = .ACTIVE ∧ s'.cancelled_at = none ∧ s'.cancellation_reason = none ∧
      s'.end_date = none ∧ s'.auto_renew = true) := by
  have hstat : s.status = .CANCELLED := by
    have := List.find?_some hfind
    simp at this
    exact this.2
  refine ⟨hstat, ?_, ?_, ?_⟩
  · cases he : s.end_date with
    | none =>
      simp [SubApp.reactivate_subscription, hfind, SubApp.reactivate_one, he,
        Except.isOk, Except.toBool]
    | some e =>
      by_cases hlt : e < now
      · simp [SubApp.reactivate_subscription, hfind, SubApp.reactivate_one, he, hlt,
          Except.isOk, Except.toBool, not_le.mpr hlt]
      · simp [SubApp.reactivate_subscription, hfind, SubApp.reactivate_one, he, hlt,
          Except.isOk, Except.toBool, not_lt.mp hlt]
  · rintro ⟨e, he, hlt⟩
    simp [SubApp.reactivate_subscription, hfind, SubApp.reactivate_one, he, hlt]
  · intro subs' s' hok
    cases he : s.end_date with
    | none =>
      simp [SubApp.reactivate_subscription, hfind, SubApp.reactivate_one, he] at hok
      simp [← hok.2, SubApp.apply_reactivate]
    | some e =>
      by_cases hlt : e < now
      · simp [SubApp.reactivate_subscription, hfind, SubApp.reactivate_one, he, hlt] at hok
      · simp [SubApp.reactivate_subscription, hfind, SubApp.reactivate_one, he, hlt] at hok
        simp [← hok.2, SubApp.apply_reactivate]

/-- Claim C6 witness: the cancelled subscription with `end_date` day 100 is
successfully reactivated at day 50. -/
theorem reactivate_subscription_behavior_witness :
    (SubApp.reactivate_subscription [SubApp.cancelled_sub] 7 50).isOk = true :=
  (reactivate_subscription_behavior [SubApp.cancelled_sub] 7 50 SubApp.cancelled_sub
    rfl).2.1.mpr (Or.inr ⟨100, rfl, by decide⟩)

/-- Claim C7, counterexample: cancelling the ACTIVE subscription (period day
0 to day 100) at day 50 with `immediate = false` sets status CANCELLED and
`end_date = current_period_end = 100`, but `is_active` is already false at
day 50 (< 100): the status check of `Subscription.is_active` fails on
CANCELLED, so the vendor does not retain access until `end_date` per that
check, contrary to the claim. -/
theorem cancel_at_period_end_not_is_active :
    (SubApp.cancel_subscription [SubApp.active_sub] 7 none false 50).toOption.map
      (fun r => (r.2.status, r.2.end_date, SubApp.is_active r.2 50)) =
      some (.CANCELLED, some 100, false) ∧
    (50 : Time) < 100 :=
  ⟨rfl, by decide⟩

/-- Claim C7, amended: for the ACTIVE/TRIAL subscription fetched by
`cancel_subscription`, cancelling with `immediate = false` sets
`cancelled_at` and the reason, clears `auto_renew`, sets status CANCELLED and
`end_date = current_period_end` (not now); however, `is_active()` returns
false from that moment on for every time, because its status check fails on
CANCELLED — access does not continue until `end_date` as judged by
`is_active()`. -/
theorem cancel_subscription_period_end_behavior (subs : List SubApp.Subscription)
    (vendor_id : Nat) (reason : Option String) (now : Time) (s : SubApp.Subscription)
    (hfind : SubApp.find_active subs vendor_id = some s) :
    SubApp.cancel_subscription subs vendor_id reason false now =
      .ok (SubApp.update_sub subs (SubApp.apply_cancel s reason false now),
           SubApp.apply_cancel s reason false now) ∧
    (SubApp.apply_cancel s reason false now).cancelled_at = some now ∧
    (SubApp.apply_cancel s reason false now).cancellation_reason = reason ∧
    (SubApp.apply_cancel s reason false now).auto_renew = false ∧
    (SubApp.apply_cancel s reason false now).status = .CANCELLED ∧
    (SubApp.apply_cancel s reason false now).end_date = some s.current_period_end ∧
    ∀ t, SubApp.is_active (SubApp.apply_cancel s reason false now) t = false := by
  refine ⟨?_, rfl, rfl, rfl, rfl, rfl, fun t => rfl⟩
  simp [SubApp.cancel_subscription, hfind]

/-- Claim C7 witness: the concrete period-midpoint cancellation succeeds and
returns the updated row. -/
theorem cancel_subscription_period_end_behavior_witness :
    SubApp.cancel_subscription [SubApp.active_sub] 7 none false 50 =
      .ok (SubApp.update_sub [SubApp.active_sub]
            (SubApp.apply_cancel SubApp.active_sub none false 50),
           SubApp.apply_cancel SubApp.active_sub none false 50) :=
  (cancel_subscription_period_end_behavior [SubApp.active_sub] 7 none 50
    SubApp.active_sub rfl).1

/-- Claim C8, counterexample: the vendor-7 trace subscribe (day 0) → cancel at
period end (day 10) → subscribe again (day 12) → reactivate (day 15) runs to
completion and leaves the vendor with **two** subscriptions in status ACTIVE:
`reactivate_subscription` does not re-check the one-active-subscription
precondition, so the claimed invariant is not preserved by every operation. -/
theorem two_active_subscriptions_reachable :
    SubApp.resurrection_trace.toOption.map (fun r => SubApp.active_count r.1 7) =
      some 2 := rfl

/-- Claim C8, amended: `create_subscription` never creates a second ACTIVE or
TRIAL subscription — with an active (found) plan it succeeds if and only if
the vendor has no subscription in {ACTIVE, TRIAL} — but when one exists the
request fails with `UnboundLocalError` (the conflict `HTTPException` reads
the function-local `status` before its assignment at lines 111/115), not
with the claimed conflict error; and the invariant is not preserved by every
operation, since `reactivate_subscription` performs no such check (see the
counterexample trace reaching two ACTIVE subscriptions for one vendor). -/
theorem create_subscription_guard_behavior (subs : List SubApp.Subscription)
    (next_id vendor_id : Nat) (plan : SubApp.SubscriptionPlan)
    (billing_cycle_arg : Option SubApp.BillingCycle) (start_trial : Bool)
    (now : Time) (hplan : plan.is_active = true) :
    ((SubApp.create_subscription subs next_id vendor_id plan billing_cycle_arg
        start_trial now).isOk = true ↔
      SubApp.has_active_subscription subs vendor_id = false) ∧
    (SubApp.has_active_subscription subs vendor_id = true →
      SubApp.create_subscription subs next_id vendor_id plan billing_cycle_arg
        start_trial now = .error .unboundLocalError) := by
  by_cases h : SubApp.has_active_subscription subs vendor_id
  · simp [SubApp.create_subscription, hplan, h, Except.isOk, Except.toBool]
  · simp [SubApp.create_subscription, hplan, h, Except.isOk, Except.toBool]

/-- Claim C8 witness: subscribing while an ACTIVE subscription exists fails
(with the `UnboundLocalError` crash of the conflict path). -/
theorem create_subscription_guard_behavior_witness :
    SubApp.create_subscription [SubApp.active_sub] 2 7 SubApp.monthly_plan none
      false 5 = .error .unboundLocalError :=
  (create_subscription_guard_behavior [SubApp.active_sub] 2 7 SubApp.monthly_plan
    none false 5 rfl).2 (by decide)

theorem retry_step_count (p : SubApp.Payment) (now : Time) (p' : SubApp.Payment)
    (h : SubApp.retry_failed_payment p now = .ok p') :
    p'.retry_count = p.retry_count + 1 ∧ p.retry_count < 3 := by
  by_cases h1 : p.status ≠ .FAILED
  · simp [SubApp.retry_failed_payment, h1] at h
  · by_cases h2 : p.retry_count ≥ 3
    · simp [SubApp.retry_failed_payment, h1, h2] at h
    · constructor
      · by_cases h3 : p.retry_count + 1 ≥ 2
        · simp [SubApp.retry_failed_payment, h1, h2, h3] at h
          simp [← h]
        · simp [SubApp.retry_failed_payment, h1, h2, h3] at h
          simp [← h]
      · exact not_le.mp h2

theorem retry_many_bound (ts : List Time) (p : SubApp.Payment)
    (h : p.retry_count ≤ 3) : (SubApp.retry_many p ts).retry_count ≤ 3 := by
  induction ts generalizing p with
  | nil => simpa [SubApp.retry_many] using h
  | cons t ts ih =>
    rw [SubApp.retry_many]
    cases hr : SubApp.retry_failed_payment p t with
    | ok p' =>
      have hs := retry_step_count p t p' hr
      exact ih p' (by omega)
    | error e => exact ih p h

/-- Claim C9: retrying a FAILED payment whose `retry_count` is already 3 (or
more) is rejected with the max-retry error; every accepted retry increases
`retry_count` by exactly 1 and is only possible from `retry_count < 3`; hence
from any payment within the bound, no sequence of retry operations can drive
`retry_count` above 3. -/
theorem retry_count_bounded (p : SubApp.Payment) (ts : List Time)
    (h : p.retry_count ≤ 3) :
    (p.status = .FAILED → 3 ≤ p.retry_count →
      ∀ now, SubApp.retry_failed_payment p now = .error .maxRetryExceeded) ∧
    (∀ now p', SubApp.retry_failed_payment p now = .ok p' →
      p'.retry_count = p.retry_count + 1) ∧
    (SubApp.retry_many p ts).retry_count ≤ 3 := by
  refine ⟨?_, ?_, retry_many_bound ts p h⟩
  · intro hst hge now
    simp [SubApp.retry_failed_payment, hst, hge]
  · intro now p' h'
    exact (retry_step_count p now p' h').1

/-- Claim C9 witness: the FAILED payment with `retry_count = 3` is rejected. -/
theorem retry_count_bounded_witness :
    SubApp.retry_failed_payment SubApp.exhausted_payment 0 =
      .error .maxRetryExceeded :=
  (retry_count_bounded SubApp.exhausted_payment [] (by decide)).1 rfl (by decide) 0

/-- Claim C10: for every usage record whose `usage_limit` is exactly 0,
`track_feature_usage` accepts every positive increment — the check tests the
truthiness of `usage_limit`, and 0 is falsy, so a zero limit behaves like no
limit — even though `is_limit_exceeded` simultaneously reports the limit as
exceeded for any non-negative `usage_count`. -/
theorem track_usage_zero_limit_unlimited (u : SubApp.UsageRecord) (inc : Int)
    (now : Time) (hlim : u.usage_limit = some 0) (hpos : 0 < inc)
    (hcount : 0 ≤ u.usage_count) :
    (SubApp.track_feature_usage u inc now).1.success = true ∧
    (SubApp.track_feature_usage u inc now).2.usage_count = u.usage_count + inc ∧
    SubApp.is_limit_exceeded u = true := by
  refine ⟨?_, ?_, ?_⟩
  · simp [SubApp.track_feature_usage, hlim, SubApp.TrackUsageResult.success]
  · simp [SubApp.track_feature_usage, hlim]
  · simp [SubApp.is_limit_exceeded, hlim, hcount]

/-- Claim C10 witness: the record with `usage_limit = 0` accepts increment 5
while `is_limit_exceeded` reports true. -/
theorem track_usage_zero_limit_unlimited_witness :
    (SubApp.track_feature_usage SubApp.zero_limit_record 5 1).1.success = true ∧
    (SubApp.track_feature_usage SubApp.zero_limit_record 5 1).2.usage_count = 0 + 5 ∧
    SubApp.is_limit_exceeded SubApp.zero_limit_record = true :=
  track_usage_zero_limit_unlimited SubApp.zero_limit_record 5 1 rfl (by decide)
    (by decide)
